import Mathlib

/-!
Verification development for the client-side API/session layer of the
repository: the token store (`TokenManager`), the HTTP client
(`HttpClient.request`) and the auth service (`AuthService`), embedded
shallowly from `src/services/api.ts` and the auth/organization service file.

JavaScript runtime semantics that the source relies on (`atob`,
`JSON.parse`, property access, truthiness, numeric coercion,
`JSON.stringify`, object spread) are modelled explicitly below.  Numbers
are modelled as exact rationals (`Rat`); IEEE-754 double rounding and the
decimal rendering of non-integer numbers are not modelled, and no claim
depends on them.  `NaN` is modelled as the `none` case of `Option Rat`.
-/

/-- A JSON value, the result of `JSON.parse` and the shape of response
bodies flowing through the HTTP client. -/
inductive JsonValue where
  | null : JsonValue
  | bool (b : Bool) : JsonValue
  | num (q : Rat) : JsonValue
  | str (s : String) : JsonValue
  | arr (elems : List JsonValue) : JsonValue
  | obj (fields : List (String × JsonValue)) : JsonValue

/-- A JavaScript `Error` (or `DOMException`) as observed by `catch`
blocks: its `name` and `message`. -/
structure JsError where
  name : String
  message : String
deriving DecidableEq

/-! ## forgiving-base64 (`atob`), per the WHATWG HTML standard -/

/-- Value of a base64 alphabet character, `none` for characters outside
the alphabet. -/
def b64Val (c : Char) : Option Nat :=
  if 'A' ≤ c ∧ c ≤ 'Z' then some (c.toNat - 65)
  else if 'a' ≤ c ∧ c ≤ 'z' then some (c.toNat - 97 + 26)
  else if '0' ≤ c ∧ c ≤ '9' then some (c.toNat - 48 + 52)
  else if c = '+' then some 62
  else if c = '/' then some 63
  else none

/-- ASCII whitespace, removed by forgiving-base64 decode. -/
def asciiWs (c : Char) : Bool :=
  c = ' ' || c = '\t' || c = '\n' || c = '\x0c' || c = '\r'

/-- Validation phase of forgiving-base64 decode: strip whitespace, strip
up to two trailing padding characters when the length is a multiple of
four, then fail when the length is 1 mod 4 or a character is outside the
alphabet. -/
def b64Strip (cs : List Char) : Option (List Char) :=
  let ws := cs.filter (fun c => !asciiWs c)
  let stripped :=
    if ws.length % 4 = 0 then
      match ws.reverse with
      | '=' :: '=' :: r => r.reverse
      | '=' :: r => r.reverse
      | _ => ws
    else ws
  if stripped.length % 4 = 1 then none
  else if stripped.all (fun c => (b64Val c).isSome) then some stripped
  else none

/-- Turn a list of sextet values into output bytes; a trailing group of
two sextets yields one byte and a group of three yields two (unused low
bits discarded, as forgiving-base64 does). -/
def b64Bytes : List Nat → List Nat
  | a :: b :: c :: d :: rest =>
      (a * 4 + b / 16) :: ((b % 16) * 16 + c / 4) :: ((c % 4) * 64 + d) :: b64Bytes rest
  | [a, b] => [a * 4 + b / 16]
  | [a, b, c] => [a * 4 + b / 16, (b % 16) * 16 + c / 4]
  | _ => []

/-- The browser `atob`: forgiving-base64 decode to a string of code
units 0–255; `none` models the `InvalidCharacterError` throw. -/
def atob (s : String) : Option String :=
  (b64Strip s.data).map fun cs =>
    String.mk ((b64Bytes (cs.map fun c => (b64Val c).getD 0)).map Char.ofNat)

/-! ## JSON.parse -/

/-- JSON whitespace. -/
def jsonWs (c : Char) : Bool :=
  c = ' ' || c = '\t' || c = '\n' || c = '\r'

/-- Drop leading JSON whitespace. -/
def skipWs : List Char → List Char
  | [] => []
  | c :: t => if jsonWs c then skipWs t else c :: t

/-- Decimal digit value. -/
def digitVal (c : Char) : Option Nat :=
  if '0' ≤ c ∧ c ≤ '9' then some (c.toNat - 48) else none

/-- Longest prefix of decimal digits. -/
def takeDigits : List Char → (List Nat × List Char)
  | [] => ([], [])
  | c :: t =>
    match digitVal c with
    | some d => let (ds, r) := takeDigits t; (d :: ds, r)
    | none => ([], c :: t)

/-- Natural number denoted by a digit list. -/
def natOfDigits (ds : List Nat) : Nat :=
  ds.foldl (fun acc d => acc * 10 + d) 0

/-- Scale a rational by a power of ten with integer exponent. -/
def scalePow10 (q : Rat) (e : Int) : Rat :=
  if 0 ≤ e then q * (10 : Rat) ^ e.toNat else q / (10 : Rat) ^ (-e).toNat

/-- Parse a JSON number per the JSON grammar (`-?int frac? exp?`, no
leading `+`, no bare `.5` or `5.`); the value is kept exact as a
rational. -/
def parseJsonNumber (cs : List Char) : Option (Rat × List Char) :=
  let (neg, cs1) := match cs with
    | '-' :: t => (true, t)
    | _ => (false, cs)
  let (ids, cs2) := takeDigits cs1
  if ids.isEmpty then none
  else
    let (fds, cs3) := match cs2 with
      | '.' :: t =>
        let (ds, r) := takeDigits t
        (ds, if ds.isEmpty then cs2 else r)
      | _ => ([], cs2)
    match cs2 with
    | '.' :: t =>
      if (takeDigits t).1.isEmpty then none
      else parseJsonNumberExp neg ids fds cs3
    | _ => parseJsonNumberExp neg ids fds cs3
where
  /-- Optional exponent part, then assemble the rational value. -/
  parseJsonNumberExp (neg : Bool) (ids fds : List Nat) (cs : List Char) :
      Option (Rat × List Char) :=
    let mantissa : Rat :=
      (natOfDigits ids : Rat) + (natOfDigits fds : Rat) / (10 : Rat) ^ fds.length
    let signed := if neg then -mantissa else mantissa
    match cs with
    | 'e' :: t => parseExpTail signed t
    | 'E' :: t => parseExpTail signed t
    | _ => some (signed, cs)
  /-- Exponent digits after `e`/`E` with optional sign. -/
  parseExpTail (base : Rat) (cs : List Char) : Option (Rat × List Char) :=
    let (eneg, cs1) := match cs with
      | '+' :: t => (false, t)
      | '-' :: t => (true, t)
      | _ => (false, cs)
    let (eds, cs2) := takeDigits cs1
    if eds.isEmpty then none
    else
      let e : Int := if eneg then -(natOfDigits eds : Int) else (natOfDigits eds : Int)
      some (scalePow10 base e, cs2)

/-- Hexadecimal digit value. -/
def hexVal (c : Char) : Option Nat :=
  if '0' ≤ c ∧ c ≤ '9' then some (c.toNat - 48)
  else if 'a' ≤ c ∧ c ≤ 'f' then some (c.toNat - 97 + 10)
  else if 'A' ≤ c ∧ c ≤ 'F' then some (c.toNat - 65 + 10)
  else none

/-- Body of a JSON string after the opening quote: returns the decoded
characters and the input after the closing quote.  Escapes are decoded
per JSON; a `\u` escape in the surrogate range is mapped to U+FFFD since
Lean characters are Unicode scalar values (no claim exercises
surrogates).  Raw control characters are rejected, as `JSON.parse`
does. -/
def parseStringBody : List Char → Option (List Char × List Char)
  | [] => none
  | '"' :: rest => some ([], rest)
  | '\\' :: 'u' :: h1 :: h2 :: h3 :: h4 :: rest =>
    match hexVal h1, hexVal h2, hexVal h3, hexVal h4 with
    | some a, some b, some c, some d =>
      let code := ((a * 16 + b) * 16 + c) * 16 + d
      let ch := if 0xD800 ≤ code ∧ code ≤ 0xDFFF then Char.ofNat 0xFFFD else Char.ofNat code
      (parseStringBody rest).map fun (cs, r) => (ch :: cs, r)
    | _, _, _, _ => none
  | '\\' :: e :: rest =>
    let ch : Option Char :=
      if e = '"' then some '"'
      else if e = '\\' then some '\\'
      else if e = '/' then some '/'
      else if e = 'b' then some '\x08'
      else if e = 'f' then some '\x0c'
      else if e = 'n' then some '\n'
      else if e = 'r' then some '\r'
      else if e = 't' then some '\t'
      else none
    match ch with
    | some c => (parseStringBody rest).map fun (cs, r) => (c :: cs, r)
    | none => none
  | c :: rest =>
    if c.toNat < 0x20 then none
    else (parseStringBody rest).map fun (cs, r) => (c :: cs, r)

mutual

/-- Recursive-descent JSON value parser; the fuel argument bounds the
nesting depth and is supplied as the input length at top level, which
always suffices since each nesting level consumes at least one
character. -/
def parseValue : Nat → List Char → Option (JsonValue × List Char)
  | 0, _ => none
  | fuel + 1, cs =>
    match skipWs cs with
    | 'n' :: 'u' :: 'l' :: 'l' :: r => some (.null, r)
    | 't' :: 'r' :: 'u' :: 'e' :: r => some (.bool true, r)
    | 'f' :: 'a' :: 'l' :: 's' :: 'e' :: r => some (.bool false, r)
    | '"' :: r => (parseStringBody r).map fun (cs2, rest) => (.str (String.mk cs2), rest)
    | '[' :: r =>
      (match skipWs r with
       | ']' :: r2 => some (.arr [], r2)
       | r2 => (parseElems fuel r2).map fun (vs, rest) => (.arr vs, rest))
    | '\x7b' :: r =>
      (match skipWs r with
       | '\x7d' :: r2 => some (.obj [], r2)
       | r2 => (parseFields fuel r2).map fun (fs, rest) => (.obj fs, rest))
    | cs2 => (parseJsonNumber cs2).map fun (q, rest) => (.num q, rest)

/-- Comma-separated array elements up to the closing bracket. -/
def parseElems : Nat → List Char → Option (List JsonValue × List Char)
  | 0, _ => none
  | fuel + 1, cs => do
    let (v, r) ← parseValue fuel cs
    match skipWs r with
    | ',' :: r2 => do
      let (vs, r3) ← parseElems fuel r2
      pure (v :: vs, r3)
    | ']' :: r2 => pure ([v], r2)
    | _ => none

/-- Comma-separated object members up to the closing brace. -/
def parseFields : Nat → List Char → Option (List (String × JsonValue) × List Char)
  | 0, _ => none
  | fuel + 1, cs =>
    match skipWs cs with
    | '"' :: r => do
      let (key, r1) ← parseStringBody r
      match skipWs r1 with
      | ':' :: r2 => do
        let (v, r3) ← parseValue fuel r2
        match skipWs r3 with
        | ',' :: r4 => do
          let (fs, r5) ← parseFields fuel r4
          pure ((String.mk key, v) :: fs, r5)
        | '\x7d' :: r4 => pure ([(String.mk key, v)], r4)
        | _ => none
      | _ => none
    | _ => none

end

/-- The runtime `JSON.parse`: `none` models the `SyntaxError` throw. -/
def jsonParse (s : String) : Option JsonValue :=
  match parseValue (s.length + 1) s.data with
  | some (v, rest) => if (skipWs rest).isEmpty then some v else none
  | none => none

/-! ## JavaScript value semantics: truthiness, property access, coercions -/

/-- JavaScript truthiness of a JSON value (no `NaN` can occur in a
parsed JSON value, so a number is falsy exactly when it is zero). -/
def jsTruthy : JsonValue → Bool
  | .null => false
  | .bool b => b
  | .num q => decide (q ≠ 0)
  | .str s => decide (s ≠ "")
  | .arr _ => true
  | .obj _ => true

/-- Truthiness of a possibly-`undefined` value (`none` is
`undefined`). -/
def jsTruthyOpt : Option JsonValue → Bool
  | none => false
  | some v => jsTruthy v

/-- Last binding of a key in an object field list: `JSON.parse` lets a
later duplicate key overwrite an earlier one. -/
def lookupLast : List (String × JsonValue) → String → Option JsonValue
  | [], _ => none
  | (k2, v) :: t, k =>
    match lookupLast t k with
    | some r => some r
    | none => if k2 = k then some v else none

/-- Property read on a value already known not to be nullish (numbers
and booleans have no own data properties; strings and arrays expose
`length`; numeric array indexing is not modelled since no claim uses
it). -/
def jsGet : JsonValue → String → Option JsonValue
  | .obj fs, k => lookupLast fs k
  | .str s, k => if k = "length" then some (.num s.length) else none
  | .arr xs, k => if k = "length" then some (.num xs.length) else none
  | _, _ => none

/-- Property read `v.k` as an expression: reading from `null` throws a
`TypeError`, anything else yields the property value or `undefined`. -/
def jsMember (v : JsonValue) (k : String) : Except JsError (Option JsonValue) :=
  match v with
  | .null => .error ⟨"TypeError", "Cannot read properties of null"⟩
  | _ => .ok (jsGet v k)

/-- The `hasOwnProperty` call made by the HTTP client on a response
body: throws on `null`, checks own keys on objects, `length` on strings
and arrays, and is false on other primitives. -/
def jsHasOwn (v : JsonValue) (k : String) : Except JsError Bool :=
  match v with
  | .null => .error ⟨"TypeError", "Cannot read properties of null"⟩
  | .obj fs => .ok (fs.any (fun f => f.1 = k))
  | .str _ => .ok (k = "length")
  | .arr _ => .ok (k = "length")
  | _ => .ok false

mutual

/-- Structural size of a JSON value, used as recursion fuel for the
string-coercion functions below (it bounds the nesting depth). -/
def jvSize : JsonValue → Nat
  | .null => 1
  | .bool _ => 1
  | .num _ => 1
  | .str _ => 1
  | .arr xs => jvListSize xs + 1
  | .obj fs => jvFieldsSize fs + 1

/-- Size of a list of JSON values. -/
def jvListSize : List JsonValue → Nat
  | [] => 0
  | x :: t => jvSize x + jvListSize t + 1

/-- Size of a list of object members. -/
def jvFieldsSize : List (String × JsonValue) → Nat
  | [] => 0
  | (_, v) :: t => jvSize v + jvFieldsSize t + 1

end

/-- Whether a value is the JSON `null`. -/
def isNullJv : JsonValue → Bool
  | .null => true
  | _ => false

/-- Rendering of a number by JavaScript string coercion, modelled for
integers (which is all the source ever renders); the rational fallback
for non-integers is an approximation never exercised by a claim. -/
def jsNumToString (q : Rat) : String :=
  if q.den = 1 then toString q.num else toString q

/-- JavaScript `String(v)` coercion with explicit fuel; called with
`jvSize v`, which bounds the recursion depth, so the empty-string
fallback is unreachable.  Arrays render as their comma-joined elements
with nullish elements blank; objects render as `[object Object]`. -/
def jsToStringF : Nat → JsonValue → String
  | 0, _ => ""
  | _ + 1, .null => "null"
  | _ + 1, .bool b => if b then "true" else "false"
  | _ + 1, .num q => jsNumToString q
  | _ + 1, .str s => s
  | fuel + 1, .arr xs =>
    String.intercalate ","
      (xs.map fun x => if isNullJv x then "" else jsToStringF fuel x)
  | _ + 1, .obj _ => "[object Object]"

/-- JavaScript `String(v)` coercion. -/
def jsToString (v : JsonValue) : String := jsToStringF (jvSize v) v

/-- String coercion of a possibly-`undefined` value. -/
def jsToStringOpt : Option JsonValue → String
  | none => "undefined"
  | some v => jsToString v

/-- JavaScript whitespace trimmed by string-to-number coercion. -/
def jsNumWs (c : Char) : Bool :=
  c = ' ' || c = '\t' || c = '\n' || c = '\r' || c = '\x0b' || c = '\x0c'

/-- Signed decimal literal for string-to-number coercion: optional sign,
digits with optional fraction (either side of the point may be empty but
not both), optional exponent.  `Infinity` and radix-prefixed literals
are not modelled (they yield `none` here; no claim uses them). -/
def parseJsDecimal (cs : List Char) : Option Rat :=
  let (neg, cs1) := match cs with
    | '-' :: t => (true, t)
    | '+' :: t => (false, t)
    | _ => (false, cs)
  let (ids, cs2) := takeDigits cs1
  let (fds, cs3) := match cs2 with
    | '.' :: t => takeDigits t
    | _ => ([], cs2)
  if ids.isEmpty ∧ fds.isEmpty then none
  else
    let mantissa : Rat :=
      (natOfDigits ids : Rat) + (natOfDigits fds : Rat) / (10 : Rat) ^ fds.length
    let signed := if neg then -mantissa else mantissa
    match cs3 with
    | [] => some signed
    | 'e' :: t => parseJsDecimalExp signed t
    | 'E' :: t => parseJsDecimalExp signed t
    | _ => none
where
  /-- Exponent tail; the whole input must be consumed. -/
  parseJsDecimalExp (base : Rat) (cs : List Char) : Option Rat :=
    let (eneg, cs1) := match cs with
      | '+' :: t => (false, t)
      | '-' :: t => (true, t)
      | _ => (false, cs)
    let (eds, cs2) := takeDigits cs1
    if eds.isEmpty ∨ ¬cs2.isEmpty then none
    else
      let e : Int := if eneg then -(natOfDigits eds : Int) else (natOfDigits eds : Int)
      some (scalePow10 base e)

/-- JavaScript `ToNumber` on a string: trim, the empty string is zero,
otherwise a full-match decimal literal; `none` models `NaN`. -/
def jsStrToNumber (s : String) : Option Rat :=
  let cs := ((s.data.dropWhile jsNumWs).reverse.dropWhile jsNumWs).reverse
  if cs.isEmpty then some 0 else parseJsDecimal cs

/-- JavaScript `ToNumber` on a JSON value (`none` models `NaN`): `null`
is zero, booleans are 0/1, strings parse as decimal literals, and
arrays and objects coerce through their string rendering. -/
def jsToNumberV : JsonValue → Option Rat
  | .null => some 0
  | .bool b => some (if b then 1 else 0)
  | .num q => some q
  | .str s => jsStrToNumber s
  | .arr xs => jsStrToNumber (jsToString (.arr xs))
  | .obj fs => jsStrToNumber (jsToString (.obj fs))

/-- JavaScript `ToNumber` on a possibly-`undefined` value: `undefined`
coerces to `NaN`. -/
def jsToNumber : Option JsonValue → Option Rat
  | none => none
  | some v => jsToNumberV v

/-- Strict equality test `v === 1` used on the `first_time_login`
field. -/
def strictEqOne : Option JsonValue → Bool
  | some (.num q) => decide (q = 1)
  | _ => false

/-- Escape one character for `JSON.stringify` string output. -/
def jsonEscapeChar (c : Char) : String :=
  if c = '"' then "\\\""
  else if c = '\\' then "\\\\"
  else if c = '\n' then "\\n"
  else if c = '\r' then "\\r"
  else if c = '\t' then "\\t"
  else if c = '\x08' then "\\b"
  else if c = '\x0c' then "\\f"
  else if c.toNat < 0x20 then
    "\\u00" ++ String.mk [Char.ofNat (if c.toNat / 16 < 10 then 48 + c.toNat / 16 else 87 + c.toNat / 16),
                          Char.ofNat (if c.toNat % 16 < 10 then 48 + c.toNat % 16 else 87 + c.toNat % 16)]
  else String.mk [c]

/-- Quote and escape a string for `JSON.stringify`. -/
def jsonQuote (s : String) : String :=
  "\"" ++ String.join (s.data.map jsonEscapeChar) ++ "\""

/-- The runtime `JSON.stringify` with explicit fuel; called with
`jvSize v`, which bounds the recursion depth, so the empty-string
fallback is unreachable.  The source only ever stringifies values that
came from `JSON.parse`, so `undefined` and functions cannot occur. -/
def jsonStringifyF : Nat → JsonValue → String
  | 0, _ => ""
  | _ + 1, .null => "null"
  | _ + 1, .bool b => if b then "true" else "false"
  | _ + 1, .num q => jsNumToString q
  | _ + 1, .str s => jsonQuote s
  | fuel + 1, .arr xs =>
    "[" ++ String.intercalate "," (xs.map fun x => jsonStringifyF fuel x) ++ "]"
  | fuel + 1, .obj fs =>
    "\x7b" ++
      String.intercalate ","
        (fs.map fun f => jsonQuote f.1 ++ ":" ++ jsonStringifyF fuel f.2) ++
      "\x7d"

/-- The runtime `JSON.stringify`. -/
def jsonStringify (v : JsonValue) : String := jsonStringifyF (jvSize v) v

/-! ## Token store (`TokenManager` in `src/services/api.ts`)

Durable browser storage restricted to the four namespaced keys the
source uses (`gdpilia-auth-token`, `gdpilia-refresh-token`,
`gdpilia-first-time-login`, `gdpilia-user`); each field is the stored
string for the corresponding key, `none` when the key is absent. -/

/-- The four `localStorage` entries owned by `TokenManager`. -/
structure Storage where
  token : Option String
  refreshToken : Option String
  firstTimeLogin : Option String
  user : Option String
deriving DecidableEq

/-- Storage with no session: all four keys absent. -/
def emptyStorage : Storage := ⟨none, none, none, none⟩

namespace TokenManager

/-- Source `getToken`: read the token key. -/
def getToken (st : Storage) : Option String := st.token

/-- Source `setToken`: write the token key. -/
def setToken (st : Storage) (t : String) : Storage := { st with token := some t }

/-- Source `setRefreshToken`. -/
def setRefreshToken (st : Storage) (t : String) : Storage :=
  { st with refreshToken := some t }

/-- Source `getFirstTimeLogin`: the stored marker compared against the
string `1`. -/
def getFirstTimeLogin (st : Storage) : Bool := st.firstTimeLogin = some "1"

/-- Source `setFirstTimeLogin`: persist the flag as `1` or `0`. -/
def setFirstTimeLogin (st : Storage) (b : Bool) : Storage :=
  { st with firstTimeLogin := some (if b then "1" else "0") }

/-- Source `setUser`: store `JSON.stringify(user)`. -/
def setUser (st : Storage) (serialized : String) : Storage :=
  { st with user := some serialized }

/-- Source `getUser`: `user ? JSON.parse(user) : null`; a stored empty
string is falsy and yields `null` without parsing, and a stored
malformed string makes `JSON.parse` throw, modelled as the error
case. -/
def getUser (st : Storage) : Except JsError (Option JsonValue) :=
  match st.user with
  | some u =>
    if u = "" then .ok none
    else
      match jsonParse u with
      | some v => .ok (some v)
      | none => .error ⟨"SyntaxError", "Unexpected token in JSON"⟩
  | none => .ok none

/-- Source `clearTokens`: remove all four keys. -/
def clearTokens (_ : Storage) : Storage :=
  { token := none, refreshToken := none, firstTimeLogin := none, user := none }

/-- Segment at index 1 of `token.split('.')`; when the token has no dot
the index is out of range, `undefined` in JavaScript, which `atob`
coerces to the literal text `undefined`. -/
def middleSegment (token : String) : String :=
  match (splitDots token.data).get? 1 with
  | some seg => String.mk seg
  | none => "undefined"
where
  /-- The JavaScript `split('.')` on code units. -/
  splitDots : List Char → List (List Char)
    | [] => [[]]
    | '.' :: t => [] :: splitDots t
    | c :: t =>
      match splitDots t with
      | h :: r => (c :: h) :: r
      | [] => [[c]]

/-- Source `isTokenExpired` (`api.ts` lines 73–83):
`JSON.parse(atob(token.split('.')[1]))`, then `payload.exp * 1000 <
Date.now()`; any throw in the `try` block (bad base64, bad JSON, member
access on `null`) is caught and reported as expired.  `now` is the
`Date.now()` value in milliseconds.  When `exp` is absent or coerces to
`NaN`, the comparison is false, so the token is reported as valid. -/
def isTokenExpired (now : Rat) (token : String) : Bool :=
  match atob (middleSegment token) with
  | none => true
  | some decoded =>
    match jsonParse decoded with
    | none => true
    | some payload =>
      match jsMember payload "exp" with
      | .error _ => true
      | .ok expField =>
        match jsToNumber expField with
        | none => false
        | some q => decide (q * 1000 < now)

end TokenManager

/-! ## HTTP client (`HttpClient` in `src/services/api.ts`) -/

/-- Request/response headers as a JavaScript object: a finite map from
header name to value, `none` for an absent key. -/
def Headers : Type := String → Option String

/-- JavaScript property assignment `h[k] = v`. -/
def hset (h : Headers) (k v : String) : Headers :=
  fun k2 => if k2 = k then some v else h k2

/-- JavaScript object spread `{...base, ...ext}`: keys of `ext` win. -/
def hmergeSpread (base ext : Headers) : Headers :=
  fun k =>
    match ext k with
    | some v => some v
    | none => base k

/-- The client default headers (`API_CONFIG.DEFAULT_HEADERS`). -/
def defaultHeaders : Headers :=
  fun k =>
    if k = "Content-Type" then some "application/json"
    else if k = "Accept" then some "application/json"
    else none

/-- A settled HTTP response as `fetch` resolves it: status, status text,
the `content-type` header and the raw body text. -/
structure HttpResponse where
  status : Nat
  statusText : String
  contentType : Option String
  body : String
deriving DecidableEq

/-- Outcome of the `fetch` call itself: a settled response, or a
rejection carrying the error the promise was rejected with. -/
inductive FetchResult where
  | success (resp : HttpResponse) : FetchResult
  | failure (e : JsError) : FetchResult

/-- Modelled from the WHATWG DOM standard: `AbortSignal.timeout` aborts
its signal with a `TimeoutError` DOMException (not an `AbortError`), and
`fetch` rejects with that reason when the timeout fires. -/
def timeoutReason : JsError := ⟨"TimeoutError", "signal timed out"⟩

/-- Result of `HttpClient.request`: the resolved envelope or the error
the returned promise rejects with. -/
inductive ReqResult where
  | ok (v : JsonValue) : ReqResult
  | err (e : JsError) : ReqResult

namespace HttpClient

/-- Headers and storage after the pre-fetch phase of `request`
(`api.ts` lines 119–143). -/
structure PreparedRequest where
  headers : Headers
  storage : Storage

/-- The pre-fetch phase of `request`: merge default and caller headers,
then, when a stored token exists, either attach `Authorization: Bearer`
(token not expired) or clear the whole session (token expired)
(`api.ts` lines 119–136). -/
def prepareRequest (now : Rat) (st : Storage) (optHeaders : Headers) :
    PreparedRequest :=
  let headers := hmergeSpread defaultHeaders optHeaders
  match TokenManager.getToken st with
  | some token =>
    if TokenManager.isTokenExpired now token = false then
      { headers := hset headers "Authorization" ("Bearer " ++ token), storage := st }
    else
      { headers := headers, storage := TokenManager.clearTokens st }
  | none => { headers := headers, storage := st }

/-- The `response.ok` accessor: status in the 2xx range. -/
def respOk (r : HttpResponse) : Bool := 200 ≤ r.status && r.status ≤ 299

/-- Substring test used for `contentType.includes('application/json')`. -/
def charsIncludes (sub : List Char) : List Char → Bool
  | [] => sub.isPrefixOf []
  | c :: t => sub.isPrefixOf (c :: t) || charsIncludes sub t

/-- The content-type check guarding `response.json()` (`api.ts` lines
156–158). -/
def isJsonContentType (r : HttpResponse) : Bool :=
  match r.contentType with
  | some ct => charsIncludes "application/json".data ct.data
  | none => false

/-- Body-reading phase of `request` (`api.ts` lines 155–166): parse the
body as JSON when the content type says so (a malformed body makes
`response.json()` reject with a `SyntaxError`), otherwise synthesize the
minimal `success`/`message` envelope. -/
def parseBody (r : HttpResponse) : Except JsError JsonValue :=
  if isJsonContentType r then
    match jsonParse r.body with
    | some v => .ok v
    | none => .error ⟨"SyntaxError", "Unexpected token in JSON"⟩
  else
    .ok (.obj [("success", .bool (respOk r)),
               ("message", .str (if respOk r then "Success" else "Request failed"))])

/-- The fallback error message for non-2xx responses without a usable
`message` field. -/
def synthMessage (r : HttpResponse) : String :=
  "HTTP " ++ toString r.status ++ ": " ++ r.statusText

/-- The post-fetch phase of `request` (`api.ts` lines 148–202): the
`try`/`catch` around `fetch`.  A rejected fetch whose error is named
`AbortError` is translated to `Error("Request timeout")`, any other
error is rethrown unchanged.  A settled response flows through body
parsing, the 401 check (clear session, throw `Authentication
required`), the non-2xx check (throw `data.message` when truthy, else
the synthesized message), and envelope wrapping on success. -/
def handleResponse (prep : PreparedRequest) (outcome : FetchResult) :
    ReqResult × Storage :=
  match outcome with
  | .failure e =>
    (if e.name = "AbortError" then .err ⟨"Error", "Request timeout"⟩ else .err e,
     prep.storage)
  | .success resp =>
    match parseBody resp with
    | .error e => (.err e, prep.storage)
    | .ok data =>
      if resp.status = 401 then
        (.err ⟨"Error", "Authentication required"⟩, TokenManager.clearTokens prep.storage)
      else if respOk resp = false then
        match jsMember data "message" with
        | .error te => (.err te, prep.storage)
        | .ok mv =>
          let msg := if jsTruthyOpt mv then jsToStringOpt mv else synthMessage resp
          (.err ⟨"Error", msg⟩, prep.storage)
      else
        match jsHasOwn data "success" with
        | .error te => (.err te, prep.storage)
        | .ok b =>
          if b then (.ok data, prep.storage)
          else (.ok (.obj [("success", .bool true), ("data", data)]), prep.storage)

/-- Source `HttpClient.request` (`api.ts` lines 114–203), as a function
of the current time, the storage state, the caller-supplied
`options.headers` and the outcome of the single `fetch` call. -/
def request (now : Rat) (st : Storage) (optHeaders : Headers)
    (outcome : FetchResult) : ReqResult × Storage :=
  handleResponse (prepareRequest now st optHeaders) outcome

end HttpClient

/-! ## Auth service (`AuthService` in the auth service file) -/

namespace AuthService

/-- The `response.message || default` pattern: the `message` property
when truthy, else the fixed default.  Only called on a non-null
response value, where property access cannot throw. -/
def messageOr (response : JsonValue) (dflt : String) : String :=
  match jsMember response "message" with
  | .ok (some m) => if jsTruthy m then jsToString m else dflt
  | _ => dflt

/-- Source `AuthService.login` (auth service lines 63–125), as a
function of the resolved or rejected `httpClient.post('/login', ...)`
call and of the storage state after that call.  Every failure path runs
the `catch` block, which clears the session and rethrows. -/
def login (outcome : ReqResult) (st : Storage) :
    Except JsError JsonValue × Storage :=
  match outcome with
  | .err e => (.error e, TokenManager.clearTokens st)
  | .ok response =>
    match jsMember response "success" with
    | .error te => (.error te, TokenManager.clearTokens st)
    | .ok sv =>
      if jsTruthyOpt sv then
        match jsMember response "data" with
        | .error te => (.error te, TokenManager.clearTokens st)
        | .ok dvo =>
          match dvo with
          | some dv =>
            if jsTruthy dv then
              let tokv := jsGet dv "token"
              let rtv := jsGet dv "refreshToken"
              let usrv := jsGet dv "user"
              let ftlv := jsGet dv "first_time_login"
              if jsTruthyOpt tokv = false then
                (.error ⟨"Error", "No authentication token received from server"⟩,
                 TokenManager.clearTokens st)
              else if jsTruthyOpt usrv = false then
                (.error ⟨"Error", "No user data received from server"⟩,
                 TokenManager.clearTokens st)
              else
                let st1 := TokenManager.setToken st (jsToStringOpt tokv)
                let st2 :=
                  if jsTruthyOpt rtv then TokenManager.setRefreshToken st1 (jsToStringOpt rtv)
                  else st1
                let st3 := TokenManager.setFirstTimeLogin st2 (strictEqOne ftlv)
                let st4 :=
                  match usrv with
                  | some u => TokenManager.setUser st3 (jsonStringify u)
                  | none => st3
                match TokenManager.getToken st4 with
                | none =>
                  (.error ⟨"Error", "Failed to store authentication token"⟩,
                   TokenManager.clearTokens st4)
                | some _ => (.ok dv, st4)
            else
              (.error ⟨"Error", messageOr response "Login failed"⟩,
               TokenManager.clearTokens st)
          | none =>
            (.error ⟨"Error", messageOr response "Login failed"⟩,
             TokenManager.clearTokens st)
      else
        (.error ⟨"Error", messageOr response "Login failed"⟩,
         TokenManager.clearTokens st)

/-- Source `AuthService.register` (auth service lines 130–191): same
structure as `login` with the `Registration failed` default message and
without the final stored-token re-check. -/
def register (outcome : ReqResult) (st : Storage) :
    Except JsError JsonValue × Storage :=
  match outcome with
  | .err e => (.error e, TokenManager.clearTokens st)
  | .ok response =>
    match jsMember response "success" with
    | .error te => (.error te, TokenManager.clearTokens st)
    | .ok sv =>
      if jsTruthyOpt sv then
        match jsMember response "data" with
        | .error te => (.error te, TokenManager.clearTokens st)
        | .ok dvo =>
          match dvo with
          | some dv =>
            if jsTruthy dv then
              let tokv := jsGet dv "token"
              let rtv := jsGet dv "refreshToken"
              let usrv := jsGet dv "user"
              let ftlv := jsGet dv "first_time_login"
              if jsTruthyOpt tokv = false then
                (.error ⟨"Error", "No authentication token received from server"⟩,
                 TokenManager.clearTokens st)
              else if jsTruthyOpt usrv = false then
                (.error ⟨"Error", "No user data received from server"⟩,
                 TokenManager.clearTokens st)
              else
                let st1 := TokenManager.setToken st (jsToStringOpt tokv)
                let st2 :=
                  if jsTruthyOpt rtv then TokenManager.setRefreshToken st1 (jsToStringOpt rtv)
                  else st1
                let st3 := TokenManager.setFirstTimeLogin st2 (strictEqOne ftlv)
                let st4 :=
                  match usrv with
                  | some u => TokenManager.setUser st3 (jsonStringify u)
                  | none => st3
                (.ok dv, st4)
            else
              (.error ⟨"Error", messageOr response "Registration failed"⟩,
               TokenManager.clearTokens st)
          | none =>
            (.error ⟨"Error", messageOr response "Registration failed"⟩,
             TokenManager.clearTokens st)
      else
        (.error ⟨"Error", messageOr response "Registration failed"⟩,
         TokenManager.clearTokens st)

/-- Source `AuthService.logout` (auth service lines 196–210): the
remote `/logout` call sits in a `try` whose `catch` swallows every
error, and the `finally` block clears the local session
unconditionally and last.  The function never throws, so its result is
just the final storage state. -/
def logout (outcome : ReqResult) (st : Storage) : Storage :=
  match outcome with
  | .ok _ => TokenManager.clearTokens st
  | .err _ => TokenManager.clearTokens st

/-- Source `AuthService.getUserOrganization` (auth service lines
244–265), as a function of the storage state and of the outcome of the
`/organisations/:id` GET (which is only reached when a stored user with
a truthy `organisation_id` exists).  The surrounding `try`/`catch`
returns `null` on any thrown error. -/
def getUserOrganization (st : Storage) (outcome : ReqResult) : Option JsonValue :=
  match TokenManager.getUser st with
  | .error _ => none
  | .ok userOpt =>
    if jsTruthyOpt userOpt then
      match userOpt with
      | some u =>
        if jsTruthyOpt (jsGet u "organisation_id") then
          match outcome with
          | .err _ => none
          | .ok response =>
            match jsMember response "success" with
            | .error _ => none
            | .ok sv =>
              if jsTruthyOpt sv then
                match jsMember response "data" with
                | .error _ => none
                | .ok dvo => if jsTruthyOpt dvo then dvo else none
              else none
        else none
      | none => none
    else none

end AuthService

/-! ## Claims -/

/-- C3 (confirmed): for every token whose middle segment decodes and
parses to a payload whose `exp` member is a JSON number `q` (seconds
since epoch), `isTokenExpired` returns true when `q` is strictly in the
past relative to the current time (`q * 1000 < now` in milliseconds,
i.e. `q < now / 1000` in seconds) and false when `q` is strictly in the
future. -/
theorem c3_exp_past_future (now : Rat) (tok : String) (d : String) (p : JsonValue) (q : Rat)
    (h1 : atob (TokenManager.middleSegment tok) = some d)
    (h2 : jsonParse d = some p)
    (h3 : jsMember p "exp" = .ok (some (.num q))) :
    (q * 1000 < now → TokenManager.isTokenExpired now tok = true) ∧
    (now < q * 1000 → TokenManager.isTokenExpired now tok = false) := by
  unfold TokenManager.isTokenExpired
  simp only [h1, h2, h3]
  constructor
  · intro h
    simp [jsToNumber, jsToNumberV, h]
  · intro h
    simp [jsToNumber, jsToNumberV]
    exact h.le

/-- Witness for C3: the token with payload `exp = 1` is expired at
`Date.now() = 1700000000000` and not expired at `Date.now() = 500`. -/
theorem c3_witness :
    TokenManager.isTokenExpired 1700000000000 "a.eyJleHAiOjF9.b" = true ∧
    TokenManager.isTokenExpired 500 "a.eyJleHAiOjF9.b" = false :=
  ⟨(c3_exp_past_future 1700000000000 "a.eyJleHAiOjF9.b" "\x7b\"exp\":1\x7d"
      (.obj [("exp", .num 1)]) 1 (by with_unfolding_all rfl) (by with_unfolding_all rfl) rfl).1
      (by norm_num),
   (c3_exp_past_future 500 "a.eyJleHAiOjF9.b" "\x7b\"exp\":1\x7d"
      (.obj [("exp", .num 1)]) 1 (by with_unfolding_all rfl) (by with_unfolding_all rfl) rfl).2
      (by norm_num)⟩

/-- C2, counterexample: the claim says every token whose middle segment
is not base64-decodable-and-parseable *as a JSON object*, or which is
not three-segment, makes `isTokenExpired` return true.  The token
`x.NQ.y` is three-segment and its middle segment decodes to `5`, a JSON
number, not an object — yet `isTokenExpired` returns false (property
access on a number yields `undefined` and the `NaN` comparison is
false).  The two-segment token `a.e30` (payload `\x7b\x7d`) likewise
returns false although it is not three-segment. -/
theorem c2_counterexample :
    TokenManager.isTokenExpired 1700000000000 "x.NQ.y" = false ∧
    atob "NQ" = some "5" ∧
    jsonParse "5" = some (JsonValue.num 5) ∧
    TokenManager.isTokenExpired 1700000000000 "a.e30" = false ∧
    atob "e30" = some "\x7b\x7d" := by
  refine ⟨by with_unfolding_all rfl, rfl, by with_unfolding_all rfl,
    by with_unfolding_all rfl, rfl⟩

/-- C2 (amended): `isTokenExpired` fails closed — returns true — exactly
on the throwing paths of its `try` block: the middle segment (the text
`undefined` when fewer than two dot-separated segments exist) fails
forgiving-base64 decoding, or the decoded text fails JSON parsing, or
the parsed payload is JSON `null` (so that reading `.exp` throws).  A
middle segment parsing as any non-null JSON value does not throw, and
then the result is decided by the `exp` comparison alone. -/
theorem c2_fails_closed_on_throwing_paths (now : Rat) (tok : String)
    (h : atob (TokenManager.middleSegment tok) = none
       ∨ (∃ d, atob (TokenManager.middleSegment tok) = some d ∧ jsonParse d = none)
       ∨ (∃ d, atob (TokenManager.middleSegment tok) = some d ∧
            jsonParse d = some JsonValue.null)) :
    TokenManager.isTokenExpired now tok = true := by
  unfold TokenManager.isTokenExpired
  rcases h with h | ⟨d, h1, h2⟩ | ⟨d, h1, h2⟩
  · simp only [h]
  · simp only [h1, h2]
  · simp only [h1, h2]
    rfl

/-- Witness for C2: a token without any dot has no middle segment, so
`atob` receives the text `undefined`, whose length is 1 mod 4, and
throws; the token is reported expired. -/
theorem c2_witness : TokenManager.isTokenExpired 0 "x" = true :=
  c2_fails_closed_on_throwing_paths 0 "x" (Or.inl rfl)

/-- C9, counterexample: the claim says every payload object with no
numeric `exp` field makes `isTokenExpired` return false.  The payload
of `h.eyJleHAiOm51bGx9.s` is the object with `exp: null` — a non-numeric
`exp` — yet `isTokenExpired` returns true, because JavaScript coerces
`null` to 0 and `0 * 1000 < Date.now()` holds. -/
theorem c9_counterexample :
    TokenManager.isTokenExpired 1700000000000 "h.eyJleHAiOm51bGx9.s" = true ∧
    jsonParse "\x7b\"exp\":null\x7d" = some (JsonValue.obj [("exp", JsonValue.null)]) ∧
    jsGet (JsonValue.obj [("exp", JsonValue.null)]) "exp" = some JsonValue.null := by
  refine ⟨by with_unfolding_all rfl, by with_unfolding_all rfl, rfl⟩

/-- C9 (amended): when the middle segment decodes and parses and the
`exp` property read succeeds but the value coerces to `NaN` — in
particular when `exp` is absent, as with the payload `\x7b\x7d` — the
`NaN` comparison is false and `isTokenExpired` returns false rather
than failing closed. -/
theorem c9_nan_exp_reports_valid (now : Rat) (tok : String) (d : String)
    (p : JsonValue) (ev : Option JsonValue)
    (h1 : atob (TokenManager.middleSegment tok) = some d)
    (h2 : jsonParse d = some p)
    (h3 : jsMember p "exp" = .ok ev)
    (h4 : jsToNumber ev = none) :
    TokenManager.isTokenExpired now tok = false := by
  unfold TokenManager.isTokenExpired
  simp only [h1, h2, h3, h4]

/-- Witness for C9: the token with payload `\x7b\x7d` (no `exp` at all)
is reported as not expired at `Date.now() = 1700000000000`. -/
theorem c9_witness : TokenManager.isTokenExpired 1700000000000 "a.e30.b" = false :=
  c9_nan_exp_reports_valid 1700000000000 "a.e30.b" "\x7b\x7d" (.obj []) none
    (by with_unfolding_all rfl) (by with_unfolding_all rfl) rfl rfl

/-- C1, counterexample: the claim says a request made while the stored
token is expired carries no `Authorization` header.  But `request`
merges `options.headers` over the defaults and the expired-token branch
only refrains from *adding* a header: with a stored expired token and a
caller-supplied `Authorization` header (as `upload` can supply when the
token expires between its own check and the one inside `request`), the
outgoing request still carries that header. -/
theorem c1_counterexample :
    (Storage.mk (some "a.eyJleHAiOjF9.b") (some "r") (some "1") (some "\x7b\x7d")).token
      = some "a.eyJleHAiOjF9.b" ∧
    TokenManager.isTokenExpired 1700000000000 "a.eyJleHAiOjF9.b" = true ∧
    (HttpClient.prepareRequest 1700000000000
        ⟨some "a.eyJleHAiOjF9.b", some "r", some "1", some "\x7b\x7d"⟩
        (fun k => if k = "Authorization" then some "Bearer zz" else none)).headers
        "Authorization" = some "Bearer zz" := by
  refine ⟨rfl, by with_unfolding_all rfl, by with_unfolding_all rfl⟩

/-- C1 (amended): for every request whose stored token is expired, the
client adds no `Authorization` header of its own and clears the entire
session before proceeding; the outgoing request therefore carries no
`Authorization` header provided the caller did not supply one in
`options.headers`. -/
theorem c1_expired_token_no_auth_and_cleared (now : Rat) (st : Storage)
    (opt : Headers) (t : String)
    (h1 : st.token = some t)
    (h2 : TokenManager.isTokenExpired now t = true)
    (h3 : opt "Authorization" = none) :
    (HttpClient.prepareRequest now st opt).headers "Authorization" = none ∧
    (HttpClient.prepareRequest now st opt).storage = emptyStorage := by
  unfold HttpClient.prepareRequest TokenManager.getToken
  simp only [h1, h2, Bool.true_eq_false, if_false, ite_false]
  constructor
  · simp [hmergeSpread, h3, defaultHeaders]
  · rfl

/-- Witness for C1: a dotless token is always reported expired; with no
caller headers the prepared request has no `Authorization` header and
the session is cleared. -/
theorem c1_witness :
    (HttpClient.prepareRequest 0 ⟨some "x", some "r", none, none⟩
        (fun _ => none)).headers "Authorization" = none ∧
    (HttpClient.prepareRequest 0 ⟨some "x", some "r", none, none⟩
        (fun _ => none)).storage = emptyStorage :=
  c1_expired_token_no_auth_and_cleared 0 ⟨some "x", some "r", none, none⟩
    (fun _ => none) "x" rfl rfl rfl

/-- C7 (code bug): a fired 30-second timeout makes `fetch` reject with
the `TimeoutError` DOMException that `AbortSignal.timeout` installs as
its abort reason, but the catch block only translates errors named
`AbortError` into `Error("Request timeout")`; the timeout is therefore
rethrown unchanged with message `signal timed out`, not the promised
`Request timeout`, while a (never-produced) `AbortError` would have
been translated. -/
theorem c7_timeout_rethrown_untranslated :
    (HttpClient.request 0 emptyStorage (fun _ => none) (.failure timeoutReason)).1
      = .err ⟨"TimeoutError", "signal timed out"⟩ ∧
    timeoutReason.message ≠ "Request timeout" ∧
    (HttpClient.request 0 emptyStorage (fun _ => none)
        (.failure ⟨"AbortError", "The user aborted a request"⟩)).1
      = .err ⟨"Error", "Request timeout"⟩ := by
  refine ⟨rfl, by decide, rfl⟩

/-- C4, counterexample: the claim says every 401 response clears the
session and rejects with `Authentication required`.  But the body is
read before the status check: a 401 with a JSON content type and a
malformed body makes `response.json()` throw first, so the call rejects
with the `SyntaxError` and the stored session survives untouched. -/
theorem c4_counterexample :
    HttpClient.request 0 ⟨none, none, none, some "u"⟩ (fun _ => none)
        (.success ⟨401, "Unauthorized", some "application/json", "oops"⟩)
      = (.err ⟨"SyntaxError", "Unexpected token in JSON"⟩, ⟨none, none, none, some "u"⟩) ∧
    (Storage.mk none none none (some "u")) ≠ emptyStorage ∧
    "Unexpected token in JSON" ≠ "Authentication required" := by
  refine ⟨by with_unfolding_all rfl, by decide, by decide⟩

/-- C4 (amended): a 401 response never resolves successfully, and
whenever the body-reading step succeeds (non-JSON content type, or JSON
content type with a parseable body) a 401 clears the entire session and
rejects with `Authentication required`; only a 401 whose JSON body is
malformed rejects with the parse error instead, without clearing. -/
theorem c4_401_clears_and_rejects (now : Rat) (st : Storage) (opt : Headers)
    (resp : HttpResponse) (h401 : resp.status = 401) :
    (∃ e, (HttpClient.request now st opt (.success resp)).1 = .err e) ∧
    (∀ data, HttpClient.parseBody resp = .ok data →
      HttpClient.request now st opt (.success resp)
        = (.err ⟨"Error", "Authentication required"⟩, emptyStorage)) := by
  unfold HttpClient.request HttpClient.handleResponse
  constructor
  · cases hp : HttpClient.parseBody resp with
    | error e => exact ⟨e, by simp [hp]⟩
    | ok data => exact ⟨⟨"Error", "Authentication required"⟩, by simp [hp, h401]⟩
  · intro data hp
    simp [hp, h401, TokenManager.clearTokens, emptyStorage]

/-- Witness for C4: a 401 with a well-formed empty JSON object body
rejects with `Authentication required` and empties a previously
populated session. -/
theorem c4_witness :
    HttpClient.request 0 ⟨none, none, none, some "u"⟩ (fun _ => none)
        (.success ⟨401, "Unauthorized", some "application/json", "\x7b\x7d"⟩)
      = (.err ⟨"Error", "Authentication required"⟩, emptyStorage) :=
  (c4_401_clears_and_rejects 0 ⟨none, none, none, some "u"⟩ (fun _ => none)
      ⟨401, "Unauthorized", some "application/json", "\x7b\x7d"⟩ rfl).2
    (.obj []) (by with_unfolding_all rfl)

/-- C8, counterexample: the claim says a non-2xx, non-401 response whose
body is not JSON fails with the synthesized `HTTP <status>:
<statusText>` message.  But non-JSON bodies are first normalized to an
envelope whose `message` is the truthy string `Request failed`, and that
string — not the synthesized one — becomes the error message. -/
theorem c8_counterexample :
    (HttpClient.request 0 emptyStorage (fun _ => none)
        (.success ⟨500, "Internal Server Error", some "text/html", "<html>"⟩)).1
      = .err ⟨"Error", "Request failed"⟩ ∧
    "Request failed" ≠ "HTTP 500: Internal Server Error" := by
  refine ⟨by with_unfolding_all rfl, by decide⟩

/-- C8 (amended): for every non-2xx, non-401 response, (i) a non-JSON
body yields the error message `Request failed` (the normalized
envelope's own message), (ii) a parseable JSON body with a present,
non-empty string `message` field yields that message, and (iii) a
parseable JSON body with no `message` field yields the synthesized
`HTTP <status>: <statusText>` message. -/
theorem c8_error_message_selection (now : Rat) (st : Storage) (opt : Headers)
    (resp : HttpResponse)
    (hok : HttpClient.respOk resp = false) (h401 : resp.status ≠ 401) :
    (HttpClient.isJsonContentType resp = false →
      (HttpClient.request now st opt (.success resp)).1
        = .err ⟨"Error", "Request failed"⟩) ∧
    (∀ data m, HttpClient.isJsonContentType resp = true →
      jsonParse resp.body = some data →
      jsMember data "message" = .ok (some (.str m)) → m ≠ "" →
      (HttpClient.request now st opt (.success resp)).1 = .err ⟨"Error", m⟩) ∧
    (∀ data, HttpClient.isJsonContentType resp = true →
      jsonParse resp.body = some data →
      jsMember data "message" = .ok none →
      (HttpClient.request now st opt (.success resp)).1
        = .err ⟨"Error", HttpClient.synthMessage resp⟩) := by
  unfold HttpClient.request HttpClient.handleResponse HttpClient.parseBody
  refine ⟨fun hct => ?_, fun data m hct hparse hmsg hm => ?_, fun data hct hparse hmsg => ?_⟩
  · simp [hct, hok, h401, jsMember, jsGet, lookupLast, jsTruthyOpt, jsTruthy,
      jsToStringOpt, jsToString, jsToStringF, jvSize]
  · simp [hct, hparse, hok, h401, hmsg, jsTruthyOpt, jsTruthy, hm,
      jsToStringOpt, jsToString, jsToStringF, jvSize]
  · simp [hct, hparse, hok, h401, hmsg, jsTruthyOpt]

/-- Witness for C8: a 500 response with JSON body carrying `message:
"boom"` rejects with exactly `boom`. -/
theorem c8_witness :
    (HttpClient.request 0 emptyStorage (fun _ => none)
        (.success ⟨500, "Internal Server Error", some "application/json",
          "\x7b\"message\":\"boom\"\x7d"⟩)).1
      = .err ⟨"Error", "boom"⟩ :=
  (c8_error_message_selection 0 emptyStorage (fun _ => none)
      ⟨500, "Internal Server Error", some "application/json",
        "\x7b\"message\":\"boom\"\x7d"⟩ rfl (by decide)).2.1
    (.obj [("message", .str "boom")]) "boom" rfl
    (by with_unfolding_all rfl) rfl (by decide)

/-- Helper for C5: every `login` run on a resolved response whose data
lacks a truthy token or a truthy user ends in the `catch` block, which
clears the session and rethrows. -/
theorem login_lacking_clears (st : Storage) (v : JsonValue)
    (H : ∀ dv, jsMember v "data" = .ok (some dv) → jsTruthy dv = true →
      jsTruthyOpt (jsGet dv "token") = false ∨ jsTruthyOpt (jsGet dv "user") = false) :
    (AuthService.login (.ok v) st).2 = emptyStorage ∧
    ∃ e, (AuthService.login (.ok v) st).1 = .error e := by
  unfold AuthService.login
  dsimp only
  split
  · exact ⟨rfl, _, rfl⟩
  · rename_i sv heq
    split
    · split
      · exact ⟨rfl, _, rfl⟩
      · rename_i dvo heq2
        split
        · rename_i dv heq3
          split
          · rename_i htd
            split
            · exact ⟨rfl, _, rfl⟩
            · rename_i hntok
              split
              · exact ⟨rfl, _, rfl⟩
              · rename_i hnusr
                rcases H _ heq2 htd with h | h
                · exact absurd h hntok
                · exact absurd h hnusr
          · exact ⟨rfl, _, rfl⟩
        · exact ⟨rfl, _, rfl⟩
    · exact ⟨rfl, _, rfl⟩

/-- Helper for C5: the same property for `register`. -/
theorem register_lacking_clears (st : Storage) (v : JsonValue)
    (H : ∀ dv, jsMember v "data" = .ok (some dv) → jsTruthy dv = true →
      jsTruthyOpt (jsGet dv "token") = false ∨ jsTruthyOpt (jsGet dv "user") = false) :
    (AuthService.register (.ok v) st).2 = emptyStorage ∧
    ∃ e, (AuthService.register (.ok v) st).1 = .error e := by
  unfold AuthService.register
  dsimp only
  split
  · exact ⟨rfl, _, rfl⟩
  · rename_i sv heq
    split
    · split
      · exact ⟨rfl, _, rfl⟩
      · rename_i dvo heq2
        split
        · rename_i dv heq3
          split
          · rename_i htd
            split
            · exact ⟨rfl, _, rfl⟩
            · rename_i hntok
              split
              · exact ⟨rfl, _, rfl⟩
              · rename_i hnusr
                rcases H _ heq2 htd with h | h
                · exact absurd h hntok
                · exact absurd h hnusr
          · exact ⟨rfl, _, rfl⟩
        · exact ⟨rfl, _, rfl⟩
    · exact ⟨rfl, _, rfl⟩

/-- C5 (confirmed): every `login` or `register` call whose resolved
server response lacks a truthy (non-empty) token or lacks a truthy user
object throws, and afterwards the stored session is completely empty —
no token, refresh token, first-time-login marker or cached user
remains, because every failure path runs the `catch` block that calls
`clearTokens` before rethrowing. -/
theorem c5_failed_auth_leaves_empty_session (st : Storage) (v : JsonValue)
    (H : ∀ dv, jsMember v "data" = .ok (some dv) → jsTruthy dv = true →
      jsTruthyOpt (jsGet dv "token") = false ∨ jsTruthyOpt (jsGet dv "user") = false) :
    ((AuthService.login (.ok v) st).2 = emptyStorage ∧
      ∃ e, (AuthService.login (.ok v) st).1 = .error e) ∧
    ((AuthService.register (.ok v) st).2 = emptyStorage ∧
      ∃ e, (AuthService.register (.ok v) st).1 = .error e) :=
  ⟨login_lacking_clears st v H, register_lacking_clears st v H⟩

/-- Witness for C5: a successful-looking response whose data has a user
but no token makes both `login` and `register` fail with an empty
session, starting from a populated one. -/
theorem c5_witness :
    ((AuthService.login
        (.ok (.obj [("success", .bool true), ("data", .obj [("user", .obj [])])]))
        ⟨some "old", some "r", some "1", some "u"⟩).2 = emptyStorage ∧
      ∃ e, (AuthService.login
        (.ok (.obj [("success", .bool true), ("data", .obj [("user", .obj [])])]))
        ⟨some "old", some "r", some "1", some "u"⟩).1 = .error e) ∧
    ((AuthService.register
        (.ok (.obj [("success", .bool true), ("data", .obj [("user", .obj [])])]))
        ⟨some "old", some "r", some "1", some "u"⟩).2 = emptyStorage ∧
      ∃ e, (AuthService.register
        (.ok (.obj [("success", .bool true), ("data", .obj [("user", .obj [])])]))
        ⟨some "old", some "r", some "1", some "u"⟩).1 = .error e) :=
  c5_failed_auth_leaves_empty_session ⟨some "old", some "r", some "1", some "u"⟩
    (.obj [("success", .bool true), ("data", .obj [("user", .obj [])])])
    (by
      intro dv hdv htd
      left
      injection hdv with h1
      injection h1 with h2
      rw [← h2]
      rfl)

/-- C6 (confirmed): `logout` ends with an empty local session no matter
whether the remote `/logout` call resolved or rejected: the `catch`
swallows any error and the `finally` block clears the session last and
unconditionally. -/
theorem c6_logout_always_clears (outcome : ReqResult) (st : Storage) :
    AuthService.logout outcome st = emptyStorage := by
  cases outcome <;> rfl

/-- C10 (confirmed): whenever `getUserOrganization` actually issues the
HTTP request (a truthy stored user with a truthy `organisation_id`
exists) and that request throws, the `catch` block swallows the error
and the call resolves to `null` — the same value returned when no
organization exists. -/
theorem c10_failed_lookup_resolves_null (st : Storage) (u : JsonValue) (e : JsError)
    (h1 : TokenManager.getUser st = .ok (some u))
    (h2 : jsTruthy u = true)
    (h3 : jsTruthyOpt (jsGet u "organisation_id") = true) :
    AuthService.getUserOrganization st (.err e) = none := by
  unfold AuthService.getUserOrganization
  simp only [h1, jsTruthyOpt, h2, if_true, h3, ite_true]
  split <;> rfl

/-- Witness for C10: a stored user with organization id 7 and a network
failure on the organization GET resolve to `null`. -/
theorem c10_witness :
    AuthService.getUserOrganization ⟨none, none, none, some "\x7b\"organisation_id\":7\x7d"⟩
      (.err ⟨"TypeError", "Failed to fetch"⟩) = none :=
  c10_failed_lookup_resolves_null ⟨none, none, none, some "\x7b\"organisation_id\":7\x7d"⟩
    (.obj [("organisation_id", .num 7)]) ⟨"TypeError", "Failed to fetch"⟩
    (by with_unfolding_all rfl) rfl rfl
